import Mathlib

/-!
Shallow embedding of the referral/analytics core of the `thewhitebarn_backend`
repository, together with theorems settling the frozen claims about it.

The embedding follows the JavaScript source:
* `src/models/Partner.js` — partner schema, referral-code generation
  (`generatePartnerCode`, the `pre('save')` retry loop), `findByCode`,
  `updateStats`, the `conversionRate` virtual, and the
  `^TWBFL-[A-Z0-9]{4,10}$` code validator;
* `src/controllers/contactController.js` — `submitContactForm`,
  `getContactSubmission`, `updateContactLeadStatus`;
* `src/models/Analytics.js` — the event log schema, `trackPageView` and
  `SiteStats.updateDailyStats` (daily rollup);
* `src/controllers/analyticsController.js` — `getTimeSeriesData`
  (gap-filled time series) and the public `trackPageView` handler.

MongoDB collections are modelled as Lean lists, documents as structures,
timestamps as naturals (milliseconds), and monetary amounts as rationals.
The outcome of the environment (random suffix draws, event-log write
failures, partner-lookup exceptions) is passed in explicitly.
-/

namespace WhiteBarn

/-! ### Character classes used by the code generator

`generatePartnerCode` strips `[^a-zA-Z0-9]` and uppercases; the schema
validator for `code` accepts `^TWBFL-[A-Z0-9]{4,10}$`. -/

/-- The regex class `[a-zA-Z0-9]` from `name.replace(/[^a-zA-Z0-9]/g, '')`. -/
def isAlnumChar (c : Char) : Bool :=
  (65 ≤ c.toNat && c.toNat ≤ 90) || (97 ≤ c.toNat && c.toNat ≤ 122) ||
    (48 ≤ c.toNat && c.toNat ≤ 57)

/-- The regex class `[A-Z0-9]` from the partner-code validator. -/
def isUpperAlnumChar (c : Char) : Bool :=
  (65 ≤ c.toNat && c.toNat ≤ 90) || (48 ≤ c.toNat && c.toNat ≤ 57)

/-- JavaScript `s.toUpperCase()` restricted to the latin letters the code paths
use: uppercase every character. -/
def toUpperStr (s : String) : String := String.mk (s.data.map Char.toUpper)

/-! ### Partner model (`src/models/Partner.js`) -/

/-- Partner contact type, `enum: ['affiliate', 'influencer', 'vendor']`. -/
inductive PartnerType where
  | affiliate
  | influencer
  | vendor
deriving DecidableEq, Repr

/-- The aggregate counters in `partnerSchema.stats`. -/
structure PartnerStats where
  totalLeads : Nat
  totalTours : Nat
  totalBookings : Nat
  lastActivityAt : Nat
deriving DecidableEq, Repr

/-- A partner document. -/
structure Partner where
  name : String
  ptype : PartnerType
  email : String
  code : String
  active : Bool
  stats : PartnerStats
deriving DecidableEq, Repr

/-- Counter kind passed to `partner.updateStats(type)`. -/
inductive StatKind where
  | lead
  | tour
  | booking
deriving DecidableEq, Repr

/-- `partnerSchema.methods.updateStats`: bump the matching counter and set
`lastActivityAt` to the current time. -/
def Partner.updateStats (p : Partner) (kind : StatKind) (now : Nat) : Partner :=
  { p with
    stats :=
      match kind with
      | .lead => { p.stats with totalLeads := p.stats.totalLeads + 1, lastActivityAt := now }
      | .tour => { p.stats with totalTours := p.stats.totalTours + 1, lastActivityAt := now }
      | .booking =>
        { p.stats with totalBookings := p.stats.totalBookings + 1, lastActivityAt := now } }

/-- The partner collection. -/
abbrev PartnerStore := List Partner

/-- `partnerSchema.statics.findByCode`: case-insensitive lookup restricted to
active partners (`findOne({ code: code.toUpperCase(), active: true })`). -/
def findByCode (store : PartnerStore) (code : String) : Option Partner :=
  store.find? fun p => p.code == toUpperStr code && p.active

/-- Persisting a mutated partner document (`partner.save()`): the document with
the same (unique) code is replaced. -/
def savePartner (store : PartnerStore) (p : Partner) : PartnerStore :=
  store.map fun q => if q.code == p.code then p else q

/-- JavaScript `x.toFixed(2)` for the non-negative values produced by the
conversion-rate virtual: round half-up to two decimal places. (`Rat.floor` is
the executable floor on `ℚ`; `round2_eq_floor` below identifies it with `⌊·⌋`.) -/
def round2 (q : ℚ) : ℚ :=
  (((q * 100 + 1 / 2).floor : ℤ) : ℚ) / 100

/-- `partnerSchema.virtual('conversionRate')`: `0` when `totalLeads` is zero,
otherwise `((totalBookings / totalLeads) * 100).toFixed(2)`. -/
def conversionRate (p : Partner) : ℚ :=
  if p.stats.totalLeads = 0 then 0
  else round2 ((p.stats.totalBookings : ℚ) / (p.stats.totalLeads : ℚ) * 100)

/-! ### Referral-code generation (`src/models/Partner.js`) -/

/-- The name stem used by `generatePartnerCode`: strip `[^a-zA-Z0-9]`,
uppercase, truncate to 8 characters. -/
def cleanStem (name : String) : List Char :=
  ((name.data.filter isAlnumChar).map Char.toUpper).take 8

/-- `generatePartnerCode(name)` with the random 3-character suffix made an
explicit argument. -/
def generatePartnerCode (name suffix : String) : String :=
  "TWBFL-" ++ String.mk (cleanStem name) ++ suffix

/-- The `code` field validator `^TWBFL-[A-Z0-9]{4,10}$`: six literal prefix
characters followed by 4 to 10 characters of the class `[A-Z0-9]`, nothing
else. -/
def matchesCodePattern (s : String) : Bool :=
  match s.data with
  | c1 :: c2 :: c3 :: c4 :: c5 :: c6 :: body =>
    c1 == 'T' && c2 == 'W' && c3 == 'B' && c4 == 'F' && c5 == 'L' && c6 == '-' &&
      (4 ≤ body.length && body.length ≤ 10 && body.all isUpperAlnumChar)
  | _ => false

/-- The `pre('save')` retry loop: up to `maxAttempts = 10` candidate codes are
drawn (the i-th using random suffix `suffixes i`); the first one not present in
the store is kept, and exhausting the attempts fails (`none`). -/
def preSaveCode (name : String) (existing : List String) (suffixes : Nat → String) :
    Option String :=
  (List.range 10).findSome? fun i =>
    let candidate := generatePartnerCode name (suffixes i)
    if existing.contains candidate then none else some candidate

/-! ### Contact (lead) model (`src/models/Contact.js`) -/

/-- Administrative status lane, `enum: ['new', 'read', 'replied', 'archived']`. -/
inductive ContactStatus where
  | new
  | read
  | replied
  | archived
deriving DecidableEq, Repr

/-- A contact (lead) document: identity fields, attribution block, and the
funnel state fields used by the funnel tracker. -/
structure Contact where
  name : String
  email : String
  message : String
  status : ContactStatus
  refSource : Option PartnerType
  refCode : Option String
  tourScheduled : Bool
  tourDate : Option Nat
  booked : Bool
  bookingDate : Option Nat
  bookingAmount : Option ℚ
deriving DecidableEq, Repr

/-- The contact collection, keyed by document id. -/
abbrev ContactStore := List (Nat × Contact)

/-- The request body of `POST /api/contact` (fields relevant to the funnel;
`none` models an absent field). -/
structure ContactForm where
  name : String
  email : String
  message : String
  refCode : Option String
deriving DecidableEq, Repr

/-- `submitContactForm` (`contactController.js`). `valid` is the outcome of the
express-validator chain; `lookupThrows` models `Partner.findByCode` throwing at
runtime (the `catch` logs and continues). On a resolved code the partner's lead
counter is bumped and `refSource` is stamped with the partner's type; otherwise
the contact is still created with null attribution. -/
def submitContactForm (valid : Bool) (form : ContactForm) (store : PartnerStore)
    (lookupThrows : Bool) (now : Nat) : Except Unit (Contact × PartnerStore) :=
  if !valid then .error ()
  else
    let resolved : Option PartnerType × PartnerStore :=
      match form.refCode with
      | none => (none, store)
      | some code =>
        if lookupThrows then (none, store)
        else
          match findByCode store code with
          | some p => (some p.ptype, savePartner store (p.updateStats .lead now))
          | none => (none, store)
    let contact : Contact :=
      { name := form.name
        email := form.email
        message := form.message
        status := .new
        refSource := resolved.1
        refCode := form.refCode.map toUpperStr
        tourScheduled := false
        tourDate := none
        booked := false
        bookingDate := none
        bookingAmount := none }
    .ok (contact, resolved.2)

/-- `getContactSubmission` (`contactController.js`): fetch by id; a missing
contact is a 404 (`error`); a contact whose status is `new` is switched to
`read` and saved before being returned. -/
def getContactSubmission (store : ContactStore) (i : Nat) :
    Except Unit (Contact × ContactStore) :=
  match store.find? (fun e => e.1 == i) with
  | none => .error ()
  | some (_, c) =>
    if c.status = ContactStatus.new then
      let c' : Contact := { c with status := ContactStatus.read }
      .ok (c', store.map fun e => if e.1 == i then (e.1, c') else e)
    else .ok (c, store)

/-- The request body of `PUT /api/contact/:id/status`. -/
structure LeadStatusReq where
  tourScheduled : Option Bool
  tourDate : Option Nat
  booked : Option Bool
  bookingDate : Option Nat
  bookingAmount : Option ℚ
deriving DecidableEq, Repr

/-- Resolve a referral code and bump one partner counter, swallowing a failed
lookup (the `try`/`catch` around `Partner.findByCode` + `updateStats`). -/
def bumpPartnerStats (store : PartnerStore) (code : String) (kind : StatKind)
    (now : Nat) : PartnerStore :=
  match findByCode store code with
  | some p => savePartner store (p.updateStats kind now)
  | none => store

/-- `updateContactLeadStatus` (`contactController.js`): apply the requested
funnel fields to the contact and conditionally bump partner counters. The
source assigns `contact.tourScheduled = tourScheduled` (resp. `contact.booked =
booked`) first and only then evaluates the guard
`tourScheduled && !contact.tourScheduled && contact.refCode`, so the guard
reads the already-mutated flag; the embedding preserves that order. -/
def updateContactLeadStatus (c : Contact) (req : LeadStatusReq)
    (store : PartnerStore) (now : Nat) : Contact × PartnerStore :=
  let afterTour : Contact × PartnerStore :=
    match req.tourScheduled with
    | none => (c, store)
    | some ts =>
      let c1 : Contact :=
        { c with
          tourScheduled := ts
          tourDate := match req.tourDate with | some d => some d | none => c.tourDate }
      if ts && !c1.tourScheduled && c1.refCode.isSome then
        (c1, bumpPartnerStats store (c1.refCode.getD "") .tour now)
      else (c1, store)
  let c1 := afterTour.1
  let s1 := afterTour.2
  match req.booked with
  | none => (c1, s1)
  | some b =>
    let c2 : Contact :=
      { c1 with
        booked := b
        bookingDate := match req.bookingDate with | some d => some d | none => c1.bookingDate
        bookingAmount :=
          match req.bookingAmount with | some a => some a | none => c1.bookingAmount }
    if b && !c2.booked && c2.refCode.isSome then
      (c2, bumpPartnerStats s1 (c2.refCode.getD "") .booking now)
    else (c2, s1)

/-! ### Event log (`src/models/Analytics.js`) -/

/-- Event `type` enum of the analytics schema. -/
inductive EventType where
  | page_view
  | contact_form
  | gallery_view
  | review_submission
  | admin_login
deriving DecidableEq, Repr

/-- An analytics event document (the fields the rollup and queries read). -/
structure Event where
  etype : EventType
  page : Option String
  ipAddress : Option String
  sessionId : Option String
  referrer : Option String
  createdAt : Nat
deriving DecidableEq, Repr

/-- Milliseconds per day. -/
def dayMs : Nat := 86400000

/-- `startOfDay`: the given day at `00:00:00.000`. -/
def startOfDay (d : Nat) : Nat := d * dayMs

/-- `endOfDay`: the given day at `23:59:59.999`. -/
def endOfDay (d : Nat) : Nat := d * dayMs + (dayMs - 1)

/-! ### Daily rollup (`SiteStats.updateDailyStats`) -/

/-- The `$group` key of the rollup aggregation: `(type, page, ip)`. -/
abbrev GroupKey := EventType × Option String × Option String

/-- The group key of one event. -/
def eventKey (e : Event) : GroupKey := (e.etype, e.page, e.ipAddress)

/-- The rollup aggregation: restrict the event log to the day's window and
produce one row per distinct `(type, page, ip)` with its event count. -/
def groupDaily (events : List Event) (d : Nat) : List (GroupKey × Nat) :=
  let dayEvents := events.filter fun e =>
    startOfDay d ≤ e.createdAt && e.createdAt ≤ endOfDay d
  (dayEvents.map eventKey).dedup.map fun k =>
    (k, (dayEvents.filter fun e => eventKey e == k).length)

/-- `item._id.page.replace('/', '') || 'home'`: drop the first slash of the
page path; an empty result falls back to the logical name `home`. -/
def removeFirstSlash : List Char → List Char
  | [] => []
  | ch :: rest => if ch = '/' then rest else ch :: removeFirstSlash rest

/-- The per-page bucket name of a (non-empty) page path. -/
def pageName (p : String) : String :=
  let r := String.mk (removeFirstSlash p.data)
  if r = "" then "home" else r

/-- `byPage[pageName] = (byPage[pageName] || 0) + count` on a JavaScript object
modelled as an association list in insertion order. -/
def addToPage : List (String × Nat) → String → Nat → List (String × Nat)
  | [], k, n => [(k, n)]
  | (k', m) :: rest, k, n =>
    if k' = k then (k', m + n) :: rest else (k', m) :: addToPage rest k n

/-- Accumulator of the `dailyData.forEach` loop in `updateDailyStats`. -/
structure RollupAcc where
  uniqueIPs : List String
  pageViewsTotal : Nat
  byPage : List (String × Nat)
  contactForms : Nat
  galleryViews : Nat
  reviews : Nat
deriving DecidableEq, Repr

/-- One iteration of the `dailyData.forEach` loop: collect the row's IP into
the distinct-IP set, then dispatch on the row's event type. A `page_view` row
whose page is absent or empty fails the `if (item._id.page)` test and is not
added to the per-page breakdown. -/
def rollupStep (acc : RollupAcc) (row : GroupKey × Nat) : RollupAcc :=
  let ip := row.1.2.2
  let acc :=
    match ip with
    | some i =>
      if i ∈ acc.uniqueIPs then acc else { acc with uniqueIPs := acc.uniqueIPs ++ [i] }
    | none => acc
  match row.1.1 with
  | .page_view =>
    let acc := { acc with pageViewsTotal := acc.pageViewsTotal + row.2 }
    match row.1.2.1 with
    | some p =>
      if p = "" then acc
      else { acc with byPage := addToPage acc.byPage (pageName p) row.2 }
    | none => acc
  | .contact_form => { acc with contactForms := acc.contactForms + row.2 }
  | .gallery_view => { acc with galleryViews := acc.galleryViews + row.2 }
  | .review_submission => { acc with reviews := acc.reviews + row.2 }
  | .admin_login => acc

/-- The daily statistics record written by the rollup (the fields
`updateDailyStats` computes; `devices`, `browsers` and `topReferrers` are never
written by this operation). -/
structure DailyStats where
  date : Nat
  visitorsUnique : Nat
  visitorsTotal : Nat
  pageViewsTotal : Nat
  pageViewsByPage : List (String × Nat)
  contactForms : Nat
  galleryViews : Nat
  reviews : Nat
deriving DecidableEq, Repr

/-- `SiteStats.updateDailyStats(date)`: aggregate the day's events grouped by
`(type, page, ip)`; total visitors = number of grouped rows, unique visitors =
number of distinct non-null IPs over the rows. -/
def updateDailyStats (events : List Event) (d : Nat) : DailyStats :=
  let rows := groupDaily events d
  let acc := rows.foldl rollupStep ⟨[], 0, [], 0, 0, 0⟩
  { date := d
    visitorsUnique := acc.uniqueIPs.length
    visitorsTotal := rows.length
    pageViewsTotal := acc.pageViewsTotal
    pageViewsByPage := acc.byPage
    contactForms := acc.contactForms
    galleryViews := acc.galleryViews
    reviews := acc.reviews }

/-- The site-stats collection (one document per date). -/
abbrev StatsStore := List DailyStats

/-- `findOneAndUpdate({ date }, statsUpdate, { upsert: true })`: replace the
first record with the same date, or append a new one. -/
def upsertStats : StatsStore → DailyStats → StatsStore
  | [], s => [s]
  | r :: rest, s => if r.date = s.date then s :: rest else r :: upsertStats rest s

/-- One rollup run for day `d`: recompute the day's record from the event log
and upsert it keyed by date. -/
def rollupDay (store : StatsStore) (events : List Event) (d : Nat) : StatsStore :=
  upsertStats store (updateDailyStats events d)

/-! ### Time-series query (`getTimeSeriesData`, `analyticsController.js`) -/

/-- One entry of the gap-filled series: per-type counts plus the total. -/
structure SeriesEntry where
  date : Nat
  page_view : Nat
  contact_form : Nat
  gallery_view : Nat
  review_submission : Nat
  admin_login : Nat
  total : Nat
deriving DecidableEq, Repr, Inhabited

/-- Does an event pass the optional `type` filter of the `$match` stage? -/
def typeMatches (filterTy : Option EventType) (e : Event) : Bool :=
  match filterTy with
  | some t => e.etype == t
  | none => true

/-- The series entry for one calendar day: count the day's matched events per
type (a day with no matched events yields the zero-filled record). -/
def seriesEntryFor (matched : List Event) (d : Nat) : SeriesEntry :=
  let dayEvents := matched.filter fun e => e.createdAt / dayMs = d
  { date := d
    page_view := (dayEvents.filter fun e => e.etype == .page_view).length
    contact_form := (dayEvents.filter fun e => e.etype == .contact_form).length
    gallery_view := (dayEvents.filter fun e => e.etype == .gallery_view).length
    review_submission := (dayEvents.filter fun e => e.etype == .review_submission).length
    admin_login := (dayEvents.filter fun e => e.etype == .admin_login).length
    total := dayEvents.length }

/-- `getTimeSeriesData`: match events with `createdAt >= startDate` (and the
optional type filter), then fill every calendar day from `startDate` (`days`
days before now) up to and including today with an entry, substituting a
zero-valued record for days without events. `startTs` is the timestamp of
`startDate`; the fill loop visits the days `startTs/dayMs + i` for
`i = 0, …, days`. -/
def getTimeSeriesData (events : List Event) (filterTy : Option EventType)
    (days startTs : Nat) : List SeriesEntry :=
  let matched := events.filter fun e => startTs ≤ e.createdAt && typeMatches filterTy e
  (List.range (days + 1)).map fun i => seriesEntryFor matched (startTs / dayMs + i)

/-! ### Public event tracking (`trackPageView`) -/

/-- The body of `POST /api/analytics/track` plus the request metadata the
controller forwards. -/
structure TrackReq where
  page : Option String
  referrer : Option String
  sessionId : Option String
  ipAddress : Option String
deriving DecidableEq, Repr

/-- The event document `Analytics.trackPageView` appends. -/
def pageViewEvent (req : TrackReq) (now : Nat) : Event :=
  { etype := .page_view
    page := req.page
    ipAddress := req.ipAddress
    sessionId := req.sessionId
    referrer := req.referrer
    createdAt := now }

/-- Outcome of an express handler wrapped in `asyncHandler`: either a success
response, or an error forwarded to the error-handling middleware. -/
inductive TrackResult where
  | success (log : List Event)
  | failed (msg : String)
deriving DecidableEq, Repr

/-- Whether the handler produced the success response. -/
def TrackResult.isSuccess : TrackResult → Bool
  | .success _ => true
  | .failed _ => false

/-- The `trackPageView` controller: it `await`s `Analytics.trackPageView`, so a
rejected event-log write is forwarded by `asyncHandler` to the error middleware
and the success response is only sent after the write completed. `writeFails`
models the event-log write outcome. -/
def trackPageView (log : List Event) (req : TrackReq) (writeFails : Bool)
    (now : Nat) : TrackResult :=
  if writeFails then .failed "Analytics write error"
  else .success (log ++ [pageViewEvent req now])

/-! ### Concrete fixtures used by the theorems -/

/-- An active partner with one recorded lead. -/
def exPartnerJane : Partner :=
  { name := "Jane Doe"
    ptype := .affiliate
    email := "jane@example.com"
    code := "TWBFL-JANEDOEABC"
    active := true
    stats := { totalLeads := 1, totalTours := 0, totalBookings := 0, lastActivityAt := 0 } }

/-- An attributed lead that has neither toured nor booked yet. -/
def exLead : Contact :=
  { name := "Lead One"
    email := "lead@example.com"
    message := "we would love a tour"
    status := .new
    refSource := some .affiliate
    refCode := some "TWBFL-JANEDOEABC"
    tourScheduled := false
    tourDate := none
    booked := false
    bookingDate := none
    bookingAmount := none }

/-- A funnel update requesting `tourScheduled = true`. -/
def exTourReq : LeadStatusReq :=
  { tourScheduled := some true, tourDate := some 1000
    booked := none, bookingDate := none, bookingAmount := none }

/-- A funnel update requesting `booked = true`. -/
def exBookReq : LeadStatusReq :=
  { tourScheduled := none, tourDate := none
    booked := some true, bookingDate := some 2000, bookingAmount := some 5000 }

/-- The event log of the C5 scenario: three `page_view` events on `/home` from
two distinct IPs, and one `contact_form` event, all on day 0. -/
def ex5Events : List Event :=
  [ { etype := .page_view, page := some "/home", ipAddress := some "1.1.1.1"
      sessionId := none, referrer := none, createdAt := 1000 },
    { etype := .page_view, page := some "/home", ipAddress := some "1.1.1.1"
      sessionId := none, referrer := none, createdAt := 2000 },
    { etype := .page_view, page := some "/home", ipAddress := some "2.2.2.2"
      sessionId := none, referrer := none, createdAt := 3000 },
    { etype := .contact_form, page := none, ipAddress := some "1.1.1.1"
      sessionId := none, referrer := none, createdAt := 4000 } ]

/-- A `page_view` event with the given page, IP and timestamp. -/
def pvEvent (pg ip : Option String) (ts : Nat) : Event :=
  { etype := .page_view, page := pg, ipAddress := ip
    sessionId := none, referrer := none, createdAt := ts }

/-- A `page_view` event with no page path, on day 0. -/
def exNullPageEvent : Event :=
  { etype := .page_view, page := none, ipAddress := some "9.9.9.9"
    sessionId := none, referrer := none, createdAt := 500 }

/-- A partner with three leads and one booking. -/
def exPartnerThird : Partner :=
  { name := "Trio"
    ptype := .vendor
    email := "trio@example.com"
    code := "TWBFL-TRIOAB1"
    active := true
    stats := { totalLeads := 3, totalTours := 1, totalBookings := 1, lastActivityAt := 0 } }

/-- A partner with no leads at all. -/
def exPartnerZero : Partner :=
  { name := "Fresh"
    ptype := .influencer
    email := "fresh@example.com"
    code := "TWBFL-FRESHAB1"
    active := true
    stats := { totalLeads := 0, totalTours := 0, totalBookings := 0, lastActivityAt := 0 } }

/-- A tracking request fixture. -/
def exTrackReq : TrackReq :=
  { page := some "/home", referrer := none, sessionId := some "s1"
    ipAddress := some "1.2.3.4" }

/-- A fresh (`status = new`) contact submission. -/
def exNewContact : Contact :=
  { name := "Bob"
    email := "bob@example.com"
    message := "a message long enough"
    status := .new
    refSource := none
    refCode := none
    tourScheduled := false
    tourDate := none
    booked := false
    bookingDate := none
    bookingAmount := none }

/-- A contact form carrying the (lower-cased) referral code of
`exPartnerJane`. -/
def exForm : ContactForm :=
  { name := "Alice"
    email := "alice@example.com"
    message := "please send details"
    refCode := some "twbfl-janedoeabc" }

/-- The suffix draws used by the C3 witness: the first collides with the
existing code, the second is fresh. -/
def exSuffixes : Nat → String := fun i => if i = 0 then "AB1" else "XY2"

/-! ### C1 — funnel idempotence (tour/booking counter increments) -/

/-- C1: the claim says a `tourScheduled=true` (resp. `booked=true`) funnel
update increments the partner's tour (booking) counter exactly once across
repeated calls because the previous flag value is checked first. In the code
the guard `tourScheduled && !contact.tourScheduled && contact.refCode` is
evaluated after `contact.tourScheduled` has already been assigned, so it is
always false: the partner store is never touched by `updateContactLeadStatus`
(first conjunct), and in the concrete scenario — an attributed lead taken
through two `tourScheduled=true` and two `booked=true` updates — the partner's
tour and booking counters remain 0 instead of becoming 1. -/
theorem updateContactLeadStatus_never_increments :
    (∀ (c : Contact) (req : LeadStatusReq) (store : PartnerStore) (now : Nat),
      (updateContactLeadStatus c req store now).2 = store) ∧
    ((let r1 := updateContactLeadStatus exLead exTourReq [exPartnerJane] 1
      let r2 := updateContactLeadStatus r1.1 exTourReq r1.2 2
      let r3 := updateContactLeadStatus r2.1 exBookReq r2.2 3
      let r4 := updateContactLeadStatus r3.1 exBookReq r3.2 4
      r4.1.tourScheduled = true ∧ r4.1.booked = true ∧
        (findByCode r4.2 "TWBFL-JANEDOEABC").map (fun p => p.stats.totalTours) = some 0 ∧
        (findByCode r4.2 "TWBFL-JANEDOEABC").map (fun p => p.stats.totalBookings) = some 0)) := by
  constructor
  · intro c req store now
    unfold updateContactLeadStatus
    cases req.tourScheduled <;> cases req.booked <;>
      simp [Bool.and_not_self]
  · decide

/-! ### C5 — rollup of the 3-page-view / 1-contact-form scenario -/

/-- C5 counterexample: the claim asserts `visitors.total = 4` for the scenario,
but grouping by `(type, page, ip)` collapses the three `/home` page views from
two IPs into two rows, so with the contact-form row the rollup counts 3. -/
theorem updateDailyStats_scenario_counterexample :
    (updateDailyStats ex5Events 0).visitorsTotal ≠ 4 := by
  decide

/-- C5 (amended): the scenario rollup yields `visitors.total = 3` (one grouped
row per distinct `(type, page, ip)`), `visitors.unique = 2`,
`pageViews.total = 3`, `pageViews.byPage.home = 3` and `contactForms = 1`. -/
theorem updateDailyStats_scenario :
    updateDailyStats ex5Events 0 =
      { date := 0
        visitorsUnique := 2
        visitorsTotal := 3
        pageViewsTotal := 3
        pageViewsByPage := [("home", 3)]
        contactForms := 1
        galleryViews := 0
        reviews := 0 } := by
  decide

/-! ### C6 — per-page bucketing in the rollup -/

/-- C6 counterexample: a `page_view` event with a null page is counted in
`pageViews.total` but omitted from the per-page breakdown entirely (the
`if (item._id.page)` guard skips it), instead of being counted under `home`;
likewise for an empty-string page. -/
theorem updateDailyStats_null_page_counterexample :
    (updateDailyStats [exNullPageEvent] 0).pageViewsByPage = [] ∧
    (updateDailyStats [exNullPageEvent] 0).pageViewsTotal = 1 ∧
    (updateDailyStats [{ exNullPageEvent with page := some "" }] 0).pageViewsByPage = [] := by
  decide

/-- C6 (amended): a `page_view` whose page path is present and non-empty is
always counted under the bucket named by the path with its first slash removed
(falling back to `home` when stripping leaves the empty string, e.g. for `/`);
a `page_view` with a null or empty page is counted in `pageViews.total` but
omitted from the per-page breakdown. -/
theorem updateDailyStats_page_buckets (p : String) (ip : Option String) (ts d : Nat)
    (hp : p ≠ "") (h1 : startOfDay d ≤ ts) (h2 : ts ≤ endOfDay d) :
    (updateDailyStats [pvEvent (some p) ip ts] d).pageViewsByPage = [(pageName p, 1)] ∧
    (updateDailyStats [pvEvent (some p) ip ts] d).pageViewsTotal = 1 ∧
    (updateDailyStats [pvEvent none ip ts] d).pageViewsByPage = [] ∧
    (updateDailyStats [pvEvent none ip ts] d).pageViewsTotal = 1 := by
  cases ip <;>
    simp [updateDailyStats, groupDaily, eventKey, rollupStep, addToPage, pvEvent, h1, h2, hp]

/-- C6 witness: the amended bucketing theorem applied to a `/about` page view
on day 0. -/
theorem updateDailyStats_page_buckets_witness :
    (updateDailyStats [pvEvent (some "/about") (some "8.8.8.8") 100] 0).pageViewsByPage
      = [(pageName "/about", 1)] ∧
    (updateDailyStats [pvEvent (some "/about") (some "8.8.8.8") 100] 0).pageViewsTotal = 1 ∧
    (updateDailyStats [pvEvent none (some "8.8.8.8") 100] 0).pageViewsByPage = [] ∧
    (updateDailyStats [pvEvent none (some "8.8.8.8") 100] 0).pageViewsTotal = 1 :=
  updateDailyStats_page_buckets "/about" (some "8.8.8.8") 100 0 (by decide) (by decide)
    (by decide)

/-! ### C2 — gap-filled time series length -/

/-- C2 counterexample: for a requested window of 7 days the series has 8
entries, not 7 — the fill loop runs from `now - 7 days` through today
inclusive. -/
theorem getTimeSeriesData_length_counterexample :
    (getTimeSeriesData [] none 7 0).length ≠ 7 ∧
    (getTimeSeriesData [] none 7 0).length = 8 := by
  decide

/-- C2 (amended): for every requested window of `days` days the series has
exactly `days + 1` entries (one per calendar day from `now - days` through
today, matching the `floor(end - start in days) + 1` contract), and the entry
of any day with no matching events is the zero-valued record for that day. -/
theorem getTimeSeriesData_gap_filled (events : List Event) (filterTy : Option EventType)
    (days startTs i : Nat) (hi : i ≤ days)
    (hnone : ∀ e ∈ events, startTs ≤ e.createdAt → typeMatches filterTy e = true →
      e.createdAt / dayMs ≠ startTs / dayMs + i) :
    (getTimeSeriesData events filterTy days startTs).length = days + 1 ∧
    (getTimeSeriesData events filterTy days startTs).getD i default =
      { date := startTs / dayMs + i, page_view := 0, contact_form := 0, gallery_view := 0
        review_submission := 0, admin_login := 0, total := 0 } := by
  constructor
  · simp [getTimeSeriesData]
  · have hlen : i < (getTimeSeriesData events filterTy days startTs).length := by
      simp [getTimeSeriesData]
      omega
    rw [List.getD_eq_getElem _ _ hlen]
    have hempty :
        ((events.filter fun e => startTs ≤ e.createdAt && typeMatches filterTy e).filter
          fun e => e.createdAt / dayMs = startTs / dayMs + i) = [] := by
      apply List.filter_eq_nil_iff.mpr
      intro e he
      have hmem := List.mem_filter.mp he
      have hc : startTs ≤ e.createdAt ∧ typeMatches filterTy e = true := by
        simpa using hmem.2
      simpa using hnone e hmem.1 hc.1 hc.2
    simp only [getTimeSeriesData, List.getElem_map, List.getElem_range]
    rw [seriesEntryFor, hempty]
    rfl

/-- C2 witness: the gap-filling theorem applied to an empty event log, a 2-day
window and the middle day. -/
theorem getTimeSeriesData_gap_filled_witness :
    (getTimeSeriesData [] none 2 0).length = 3 ∧
    (getTimeSeriesData [] none 2 0).getD 1 default =
      { date := 1, page_view := 0, contact_form := 0, gallery_view := 0
        review_submission := 0, admin_login := 0, total := 0 } :=
  getTimeSeriesData_gap_filled [] none 2 0 1 (by decide) (by simp)

/-! ### C4 — rollup idempotence and per-date uniqueness -/

theorem upsertStats_idem (store : StatsStore) (s : DailyStats) :
    upsertStats (upsertStats store s) s = upsertStats store s := by
  induction store with
  | nil => simp [upsertStats]
  | cons r rest ih =>
    by_cases h : r.date = s.date
    · simp [upsertStats, h]
    · simp [upsertStats, h, ih]

theorem upsertStats_dates_subset (store : StatsStore) (s : DailyStats) :
    ∀ d ∈ (upsertStats store s).map DailyStats.date,
      d ∈ store.map DailyStats.date ∨ d = s.date := by
  induction store with
  | nil =>
    intro d hd
    simp [upsertStats] at hd
    exact Or.inr hd
  | cons r rest ih =>
    intro d hd
    by_cases h : r.date = s.date
    · simp [upsertStats, h] at hd
      rcases hd with hd | hd
      · exact Or.inr hd
      · exact Or.inl (by simp [hd])
    · simp [upsertStats, h] at hd
      rcases hd with hd | hd
      · exact Or.inl (by simp [hd])
      · rcases ih d (by simpa using hd) with h1 | h1
        · exact Or.inl (by simp; right; simpa using h1)
        · exact Or.inr h1

theorem upsertStats_nodup {store : StatsStore} (s : DailyStats)
    (h : (store.map DailyStats.date).Nodup) :
    ((upsertStats store s).map DailyStats.date).Nodup := by
  induction store with
  | nil => simp [upsertStats]
  | cons r rest ih =>
    simp only [List.map_cons, List.nodup_cons] at h
    by_cases hd : r.date = s.date
    · simp only [upsertStats, if_pos hd, List.map_cons, List.nodup_cons]
      exact ⟨by rw [← hd]; exact h.1, h.2⟩
    · simp only [upsertStats, if_neg hd, List.map_cons, List.nodup_cons]
      refine ⟨fun hmem => ?_, ih h.2⟩
      rcases upsertStats_dates_subset rest s r.date hmem with h1 | h1
      · exact h.1 h1
      · exact hd h1

/-- C4: re-running the daily rollup for the same date over the same event log
is a no-op (the record is recomputed from scratch and written as a full
replacement keyed by date), and the rollup preserves the at-most-one-record-
per-date invariant of the site-stats store. -/
theorem rollupDay_idempotent (store : StatsStore) (events : List Event) (d : Nat)
    (h : (store.map DailyStats.date).Nodup) :
    rollupDay (rollupDay store events d) events d = rollupDay store events d ∧
    ((rollupDay store events d).map DailyStats.date).Nodup :=
  ⟨upsertStats_idem store (updateDailyStats events d),
   upsertStats_nodup (updateDailyStats events d) h⟩

/-- C4 witness: the idempotence theorem applied to an empty store and the C5
event log (and, for good measure, re-run on a store already holding day 0). -/
theorem rollupDay_idempotent_witness :
    rollupDay (rollupDay [] ex5Events 0) ex5Events 0 = rollupDay [] ex5Events 0 ∧
    ((rollupDay [] ex5Events 0).map DailyStats.date).Nodup :=
  rollupDay_idempotent [] ex5Events 0 (by decide)

/-! ### C7 — conversion rate -/

/-- The executable rounding in `round2` is the floor-based half-up rounding. -/
theorem round2_eq_floor (q : ℚ) :
    round2 q = ((⌊q * 100 + 1 / 2⌋ : ℤ) : ℚ) / 100 := by
  rw [round2, Rat.floor_def, ← Rat.floor_def']

/-- Half-up rounding to two decimals moves a rational by at most `1/200`. -/
theorem abs_round2_sub_le (q : ℚ) : |round2 q - q| ≤ 1 / 200 := by
  rw [round2_eq_floor]
  have h1 : ((⌊q * 100 + 1 / 2⌋ : ℤ) : ℚ) ≤ q * 100 + 1 / 2 := Int.floor_le _
  have h2 : q * 100 + 1 / 2 < (⌊q * 100 + 1 / 2⌋ : ℤ) + 1 := Int.lt_floor_add_one _
  rw [abs_le]
  constructor <;> linarith

/-- C7 counterexample: for a partner with 3 leads and 1 booking the virtual
returns `(1/3*100).toFixed(2) = 33.33`, which is not equal to
`totalBookings / totalLeads * 100 = 100/3`. -/
theorem conversionRate_counterexample :
    conversionRate exPartnerThird ≠
      (exPartnerThird.stats.totalBookings : ℚ) / (exPartnerThird.stats.totalLeads : ℚ) * 100 ∧
    conversionRate exPartnerThird = 3333 / 100 := by
  have hproj : conversionRate exPartnerThird = round2 ((1 : ℚ) / 3 * 100) := by
    rw [conversionRate, if_neg (by decide)]
    norm_num [exPartnerThird]
  have hfloor : (⌊(1 : ℚ) / 3 * 100 * 100 + 1 / 2⌋ : ℤ) = 3333 := by
    rw [Int.floor_eq_iff]
    norm_num
  have hval : round2 ((1 : ℚ) / 3 * 100) = 3333 / 100 := by
    rw [round2_eq_floor, hfloor]
    norm_num
  refine ⟨?_, hproj.trans hval⟩
  rw [hproj.trans hval]
  norm_num [exPartnerThird]

/-- C7 (amended): the conversion rate is exactly 0 when `totalLeads = 0` (the
division branch is never taken), and otherwise equals
`totalBookings / totalLeads * 100` rounded half-up to two decimal places —
in particular it is always within `1/200` of the exact ratio. -/
theorem conversionRate_spec (p : Partner) :
    (p.stats.totalLeads = 0 → conversionRate p = 0) ∧
    (p.stats.totalLeads ≠ 0 →
      conversionRate p =
        round2 ((p.stats.totalBookings : ℚ) / (p.stats.totalLeads : ℚ) * 100) ∧
      |conversionRate p -
          (p.stats.totalBookings : ℚ) / (p.stats.totalLeads : ℚ) * 100| ≤ 1 / 200) := by
  refine ⟨fun h => by simp [conversionRate, h], fun h => ?_⟩
  rw [conversionRate, if_neg h]
  exact ⟨rfl, abs_round2_sub_le _⟩

/-- C7 witness: the conversion-rate theorem applied to a partner with no leads
and to a partner with 3 leads and 1 booking. -/
theorem conversionRate_spec_witness :
    conversionRate exPartnerZero = 0 ∧
    |conversionRate exPartnerThird -
        (exPartnerThird.stats.totalBookings : ℚ) / (exPartnerThird.stats.totalLeads : ℚ) * 100|
      ≤ 1 / 200 :=
  ⟨(conversionRate_spec exPartnerZero).1 rfl,
   ((conversionRate_spec exPartnerThird).2 (by decide)).2⟩

/-! ### C8 — event-tracking failure propagation -/

/-- C8 counterexample: when the event-log write fails, the `trackPageView`
handler does not send the success response — the awaited rejection is
forwarded by `asyncHandler` to the error middleware and the request fails,
contradicting the claimed fire-and-forget behaviour. -/
theorem trackPageView_failure_counterexample :
    (trackPageView [] exTrackReq true 0).isSuccess = false := by
  decide

/-- C8 (amended): `trackPageView` awaits the event-log write: the handler
responds successfully exactly when the write succeeds, in which case precisely
the one new `page_view` event is appended to the log; a failed write is
propagated as a handler error instead of being swallowed. -/
theorem trackPageView_awaits_write (log : List Event) (req : TrackReq) (writeFails : Bool)
    (now : Nat) :
    (trackPageView log req writeFails now).isSuccess = !writeFails ∧
    trackPageView log req false now = .success (log ++ [pageViewEvent req now]) ∧
    trackPageView log req true now = .failed "Analytics write error" := by
  cases writeFails <;> exact ⟨rfl, rfl, rfl⟩

/-! ### C10 — admin fetch of a single contact is not a pure read -/

/-- C10: fetching a single contact through `getContactSubmission` returns the
stored contact and, when its status is `new`, flips it to `read` and persists
the change before responding; for any other status the store is returned
entirely unchanged. In all cases every record with a different id is untouched
and the store keeps its size. -/
theorem getContactSubmission_spec (store : ContactStore) (i : Nat) (c : Contact)
    (hfind : store.find? (fun e => e.1 == i) = some (i, c)) :
    ∃ c' store', getContactSubmission store i = .ok (c', store') ∧
      (c.status = .new → c' = { c with status := .read } ∧ (i, c') ∈ store') ∧
      (c.status ≠ .new → c' = c ∧ store' = store) ∧
      (∀ e ∈ store, e.1 ≠ i → e ∈ store') ∧
      store'.length = store.length := by
  have hmem : (i, c) ∈ store := List.mem_of_find?_eq_some hfind
  rw [getContactSubmission, hfind]
  dsimp only
  by_cases h : c.status = ContactStatus.new
  · rw [if_pos h]
    refine ⟨_, _, rfl, fun _ => ⟨rfl, ?_⟩, fun hn => absurd h hn, fun e he hne => ?_, ?_⟩
    · exact List.mem_map.mpr ⟨(i, c), hmem, by simp⟩
    · refine List.mem_map.mpr ⟨e, he, ?_⟩
      have : (e.1 == i) = false := by simp [hne]
      simp [this]
    · exact List.length_map _ _
  · rw [if_neg h]
    exact ⟨c, store, rfl, fun hn => absurd hn h, fun _ => ⟨rfl, rfl⟩,
      fun e he _ => he, rfl⟩

/-- C10 witness: fetching a `new` contact from a two-record store. -/
theorem getContactSubmission_spec_witness :
    ∃ c' store',
      getContactSubmission [(5, exNewContact), (6, { exNewContact with status := .replied })] 5
        = .ok (c', store') ∧
      (exNewContact.status = .new → c' = { exNewContact with status := .read } ∧
        (5, c') ∈ store') ∧
      (exNewContact.status ≠ .new → c' = exNewContact ∧
        store' = [(5, exNewContact), (6, { exNewContact with status := .replied })]) ∧
      (∀ e ∈ [(5, exNewContact), (6, { exNewContact with status := .replied })],
        e.1 ≠ 5 → e ∈ store') ∧
      store'.length = [(5, exNewContact), (6, { exNewContact with status := .replied })].length :=
  getContactSubmission_spec [(5, exNewContact), (6, { exNewContact with status := .replied })] 5
    exNewContact (by decide)

/-! ### C9 — lead creation is independent of referral resolution -/

/-- After saving a mutated partner that keeps the found partner's code and
stays active, a lookup by the same referral code returns the saved partner. -/
theorem findByCode_savePartner (store : PartnerStore) (code : String) (p p' : Partner)
    (hfind : findByCode store code = some p) (hcode : p'.code = p.code)
    (hact : p'.active = true) :
    findByCode (savePartner store p') code = some p' := by
  induction store with
  | nil => simp [findByCode] at hfind
  | cons q rest ih =>
    rw [findByCode, savePartner, List.map_cons]
    rw [findByCode] at hfind
    cases hq : (q.code == toUpperStr code && q.active) with
    | true =>
      rw [List.find?_cons_of_pos (p := fun r : Partner => r.code == toUpperStr code && r.active) _ hq]
        at hfind
      have hqp : q = p := Option.some.inj hfind
      have hqc : (q.code == toUpperStr code) = true := by
        have h2 := hq
        simp only [Bool.and_eq_true] at h2
        exact h2.1
      have hrepl : (q.code == p'.code) = true := by
        rw [hcode, ← hqp]
        exact beq_self_eq_true _
      rw [if_pos hrepl]
      have hp' : (p'.code == toUpperStr code && p'.active) = true := by
        simp only [Bool.and_eq_true]
        exact ⟨by rw [hcode, ← hqp]; exact hqc, hact⟩
      exact List.find?_cons_of_pos (p := fun r : Partner => r.code == toUpperStr code && r.active) _ hp'
    | false =>
      rw [List.find?_cons_of_neg (p := fun r : Partner => r.code == toUpperStr code && r.active) _
        (by simp [hq])] at hfind
      have hpp : (p.code == toUpperStr code && p.active) = true :=
        List.find?_some (p := fun r : Partner => r.code == toUpperStr code && r.active) hfind
      have hp' : (p'.code == toUpperStr code && p'.active) = true := by
        simp only [Bool.and_eq_true] at hpp ⊢
        exact ⟨by rw [hcode]; exact hpp.1, hact⟩
      by_cases hqc : (q.code == p'.code) = true
      · rw [if_pos hqc]
        exact List.find?_cons_of_pos (p := fun r : Partner => r.code == toUpperStr code && r.active) _ hp'
      · rw [if_neg hqc]
        rw [List.find?_cons_of_neg (p := fun r : Partner => r.code == toUpperStr code && r.active) _
          (by simp [hq])]
        exact ih hfind

/-- C9: a lead submission with valid fields always succeeds and creates the
contact; when the referral code is absent, does not resolve to an active
partner, or the lookup throws, the lead is created with null attribution
(`refSource = none`) and the partner store is untouched; when the code
resolves, `refSource` is stamped with the partner's type and that partner's
lead counter is incremented by exactly one. -/
theorem submitContactForm_spec (form : ContactForm) (store : PartnerStore)
    (lookupThrows : Bool) (now : Nat) :
    (∃ c s', submitContactForm true form store lookupThrows now = .ok (c, s') ∧
      c.name = form.name ∧ c.status = .new) ∧
    (form.refCode = none ∨ lookupThrows = true →
      ∃ c, submitContactForm true form store lookupThrows now = .ok (c, store) ∧
        c.refSource = none) ∧
    (∀ code, form.refCode = some code → lookupThrows = false →
      findByCode store code = none →
      ∃ c, submitContactForm true form store false now = .ok (c, store) ∧
        c.refSource = none) ∧
    (∀ code p, form.refCode = some code → lookupThrows = false →
      findByCode store code = some p →
      ∃ c s', submitContactForm true form store false now = .ok (c, s') ∧
        c.refSource = some p.ptype ∧
        (findByCode s' code).map (fun q => q.stats.totalLeads) =
          some (p.stats.totalLeads + 1)) := by
  refine ⟨?_, ?_, ?_, ?_⟩
  · cases hrc : form.refCode with
    | none =>
      simp only [submitContactForm, hrc]
      exact ⟨_, _, rfl, rfl, rfl⟩
    | some code =>
      cases lookupThrows with
      | true =>
        simp only [submitContactForm, hrc]
        exact ⟨_, _, rfl, rfl, rfl⟩
      | false =>
        cases hfind : findByCode store code with
        | none =>
          simp only [submitContactForm, hrc, hfind]
          exact ⟨_, _, rfl, rfl, rfl⟩
        | some p =>
          simp only [submitContactForm, hrc, hfind]
          exact ⟨_, _, rfl, rfl, rfl⟩
  · rintro (hrc | hlt)
    · simp only [submitContactForm, hrc]
      exact ⟨_, rfl, rfl⟩
    · subst hlt
      cases hrc : form.refCode with
      | none =>
        simp only [submitContactForm, hrc]
        exact ⟨_, rfl, rfl⟩
      | some code =>
        simp only [submitContactForm, hrc]
        exact ⟨_, rfl, rfl⟩
  · intro code hrc hlt hfind
    simp only [submitContactForm, hrc, hfind]
    exact ⟨_, rfl, rfl⟩
  · intro code p hrc hlt hfind
    have hact : p.active = true := by
      have hpred : (p.code == toUpperStr code && p.active) = true := by
        have h := hfind
        rw [findByCode] at h
        exact List.find?_some (p := fun r : Partner => r.code == toUpperStr code && r.active) h
      simp only [Bool.and_eq_true] at hpred
      exact hpred.2
    have hsaved :=
      findByCode_savePartner store code p (p.updateStats .lead now) hfind rfl hact
    simp only [submitContactForm, hrc, hfind, if_neg (by simp : ¬false = true)]
    refine ⟨_, _, rfl, rfl, ?_⟩
    rw [hsaved]
    rfl

/-- C9 witness: submitting `exForm` against a store holding the active partner
`exPartnerJane` stamps the partner's type and bumps its lead counter from 1
to 2. -/
theorem submitContactForm_spec_witness :
    ∃ c s', submitContactForm true exForm [exPartnerJane] false 9 = .ok (c, s') ∧
      c.refSource = some exPartnerJane.ptype ∧
      (findByCode s' "twbfl-janedoeabc").map (fun q => q.stats.totalLeads) =
        some (exPartnerJane.stats.totalLeads + 1) :=
  (submitContactForm_spec exForm [exPartnerJane] false 9).2.2.2 "twbfl-janedoeabc"
    exPartnerJane rfl rfl (by decide)

/-! ### C3 — referral-code generation -/

theorem toNat_ofNat_of_valid {n : Nat} (h : n.isValidChar) :
    (Char.ofNat n).toNat = n := by
  rw [Char.ofNat, dif_pos h]
  rfl

theorem isUpperAlnumChar_toUpper {c : Char} (h : isAlnumChar c = true) :
    isUpperAlnumChar c.toUpper = true := by
  simp only [isAlnumChar, Bool.or_eq_true, Bool.and_eq_true, decide_eq_true_eq] at h
  simp only [Char.toUpper, isUpperAlnumChar, Bool.or_eq_true, Bool.and_eq_true,
    decide_eq_true_eq]
  by_cases hc : c.toNat ≥ 97 ∧ c.toNat ≤ 122
  · rw [if_pos hc]
    have hv : (c.toNat - 32).isValidChar := Or.inl (by omega)
    rw [toNat_ofNat_of_valid hv]
    omega
  · rw [if_neg hc]
    omega


theorem contains_eq_true_iff {l : List String} {a : String} :
    l.contains a = true ↔ a ∈ l := List.elem_iff

theorem contains_eq_false_iff {l : List String} {a : String} :
    l.contains a = false ↔ a ∉ l := by
  constructor
  · intro h hm
    have hc := contains_eq_true_iff.mpr hm
    rw [h] at hc
    cases hc
  · intro h
    cases hb : l.contains a
    · rfl
    · exact absurd (contains_eq_true_iff.mp hb) h

/-- Every character of the generated stem is in the class `[A-Z0-9]`. -/
theorem cleanStem_all_upper (name : String) :
    (cleanStem name).all isUpperAlnumChar = true := by
  rw [cleanStem]
  apply List.all_eq_true.mpr
  intro c hc
  have hc' : c ∈ (name.data.filter isAlnumChar).map Char.toUpper :=
    List.mem_of_mem_take hc
  rcases List.mem_map.mp hc' with ⟨c0, hc0, rfl⟩
  exact isUpperAlnumChar_toUpper (List.mem_filter.mp hc0).2

theorem matchesCodePattern_eq (s : String) (b : List Char)
    (h : s.data = 'T' :: 'W' :: 'B' :: 'F' :: 'L' :: '-' :: b) :
    matchesCodePattern s = (4 ≤ b.length && b.length ≤ 10 && b.all isUpperAlnumChar) := by
  obtain ⟨d⟩ := s
  have h' : d = 'T' :: 'W' :: 'B' :: 'F' :: 'L' :: '-' :: b := h
  subst h'
  simp [matchesCodePattern]

/-- Any generated code whose stem has between 1 and 7 characters and whose
random suffix is 3 uppercase alphanumerics passes the code validator. -/
theorem matchesCodePattern_generate (name suffix : String)
    (h1 : 1 ≤ (cleanStem name).length) (h2 : (cleanStem name).length ≤ 7)
    (hlen : suffix.length = 3) (hall : suffix.data.all isUpperAlnumChar = true) :
    matchesCodePattern (generatePartnerCode name suffix) = true := by
  have hdata : (generatePartnerCode name suffix).data
      = 'T' :: 'W' :: 'B' :: 'F' :: 'L' :: '-' :: (cleanStem name ++ suffix.data) := by
    simp [generatePartnerCode]
  rw [matchesCodePattern_eq _ _ hdata]
  have hslen : suffix.data.length = 3 := hlen
  simp only [List.length_append, List.all_append, Bool.and_eq_true, decide_eq_true_eq]
  exact ⟨⟨by omega, by omega⟩, cleanStem_all_upper name, hall⟩

theorem findSome?_mem_of_exists (l : List Nat) (f : Nat → Option String)
    (h : ∃ a ∈ l, (f a).isSome) :
    ∃ b, l.findSome? f = some b ∧ ∃ a ∈ l, f a = some b := by
  induction l with
  | nil => simp at h
  | cons x xs ih =>
    rw [List.findSome?_cons]
    cases hfx : f x with
    | some b => exact ⟨b, rfl, x, List.mem_cons_self x xs, hfx⟩
    | none =>
      rcases h with ⟨a, ha, hsome⟩
      rcases List.mem_cons.mp ha with rfl | ha'
      · rw [hfx] at hsome
        cases hsome
      · rcases ih ⟨a, ha', hsome⟩ with ⟨b, hb, a', ha'', hfa⟩
        exact ⟨b, hb, a', List.mem_cons_of_mem _ ha'', hfa⟩

/-- C3 (amended): for partner names whose alphanumeric content (after
stripping and truncation to 8) has between 1 and 7 characters, and 3-character
uppercase-alphanumeric random suffixes, the pre-save hook succeeds whenever
one of the 10 attempted candidates is not already taken, and the resulting
code both matches `^TWBFL-[A-Z0-9]{4,10}$` and differs from every existing
partner code. (Names with 8 or more — or zero — alphanumeric characters
produce codes whose suffix part has 11 — or 3 — characters, violating the
validator; see the counterexample.) -/
theorem preSaveCode_valid (name : String) (existing : List String) (suffixes : Nat → String)
    (hstem1 : 1 ≤ (cleanStem name).length) (hstem2 : (cleanStem name).length ≤ 7)
    (hsuf : ∀ i, i < 10 →
      (suffixes i).length = 3 ∧ (suffixes i).data.all isUpperAlnumChar = true)
    (hfresh : ∃ i, i < 10 ∧ generatePartnerCode name (suffixes i) ∉ existing) :
    ∃ code, preSaveCode name existing suffixes = some code ∧
      matchesCodePattern code = true ∧ code ∉ existing := by
  rcases hfresh with ⟨i, hi, hnotin⟩
  have hex : ∃ a ∈ List.range 10,
      ((fun j =>
        let candidate := generatePartnerCode name (suffixes j)
        if existing.contains candidate then none else some candidate) a).isSome := by
    refine ⟨i, List.mem_range.mpr hi, ?_⟩
    simp only [contains_eq_false_iff.mpr hnotin]
    rfl
  rcases findSome?_mem_of_exists (List.range 10)
    (fun j =>
      let candidate := generatePartnerCode name (suffixes j)
      if existing.contains candidate then none else some candidate) hex
    with ⟨b, hb, a, ha, hfa⟩
  have ha10 : a < 10 := List.mem_range.mp ha
  simp only at hfa
  by_cases hca : existing.contains (generatePartnerCode name (suffixes a)) = true
  · rw [if_pos hca] at hfa
    cases hfa
  · have hca' : existing.contains (generatePartnerCode name (suffixes a)) = false := by
      cases hcc : existing.contains (generatePartnerCode name (suffixes a))
      · rfl
      · exact absurd hcc hca
    rw [if_neg (by rw [hca']; exact Bool.false_ne_true)] at hfa
    have hb' : b = generatePartnerCode name (suffixes a) := (Option.some.inj hfa).symm
    refine ⟨b, hb, ?_, ?_⟩
    · rw [hb']
      exact matchesCodePattern_generate name (suffixes a) hstem1 hstem2
        (hsuf a ha10).1 (hsuf a ha10).2
    · rw [hb']
      exact contains_eq_false_iff.mp hca'

/-- C3 counterexample: for the (perfectly acceptable) partner name `JONATHAN`
— 8 alphanumeric characters — the generator emits a code whose suffix part is
11 characters long, which violates the validator `^TWBFL-[A-Z0-9]{4,10}$`, so
the generated code does not match the claimed pattern (and the subsequent
save is rejected by the schema's own code validator). -/
theorem generatePartnerCode_pattern_counterexample :
    preSaveCode "JONATHAN" [] (fun _ => "AB1") = some "TWBFL-JONATHANAB1" ∧
    matchesCodePattern "TWBFL-JONATHANAB1" = false := by
  constructor <;> decide

/-- C3 witness: creating a partner named `Jane Doe` (7-character stem) against
a store already holding the first candidate exercises the retry loop and
produces a valid, unique code. -/
theorem preSaveCode_valid_witness :
    ∃ code, preSaveCode "Jane Doe" ["TWBFL-JANEDOEAB1"] exSuffixes = some code ∧
      matchesCodePattern code = true ∧ code ∉ ["TWBFL-JANEDOEAB1"] :=
  preSaveCode_valid "Jane Doe" ["TWBFL-JANEDOEAB1"] exSuffixes (by decide) (by decide)
    (fun i _ => by
      by_cases h : i = 0 <;> simp only [exSuffixes, h, if_true, if_false] <;> exact ⟨rfl, rfl⟩)
    ⟨1, by decide, by decide⟩

end WhiteBarn
